import Mathlib

/-!
Formal model of the `CostPathway` tool (`src/tools/gis_analysis/cost_pathway.rs`).

The tool scans a destination raster and a D8 back-link (pointer) raster of equal
dimensions in row-major order.  At every destination cell (value `> 0`) whose own
pointer is not NoData it walks the pointer chain, writing an accumulation count
into the output raster at every visited cell; cells whose pointer is NoData are
forced to NoData at the moment they are scanned.

Cell values are `f64` in the source; every operation the tool performs on them
(comparisons with `0` and with the NoData sentinel, assignment of `1`, increment
by `1`) is exact on the values involved, so values are embedded as rationals.

The source's `while !flag` trace loop has no termination guard; it is embedded
as a fuel-indexed recursion.  A run uses `rows * columns + 2` units of fuel per
trace: a trace of the source that terminates visits pairwise distinct in-grid
positions (a repeated position repeats the whole future of the loop, because the
direction read depends only on the position) followed by at most one off-grid
position, hence takes at most `rows * columns + 1` iterations.  Exhausting the
fuel (`TraceRes.spin`) therefore corresponds exactly to the source loop running
forever.

The generic raster store (`Raster`) is an external collaborator that is not part
of this crate's sampled sources; its cell get/set are modelled from the spec as
noted on `GridQ.get` and `setCell`.
-/

namespace CostPathway

attribute [local semireducible] Rat.add

/-- A raster grid: row/column extents, the NoData sentinel, and the cell data
addressed by `(row, column)`.  `f64` cell values are embedded as rationals. -/
structure GridQ where
  rows : Nat
  columns : Nat
  nodata : ℚ
  data : Int × Int → ℚ

/-- Modelled from the spec: the grid store is an opaque external collaborator
providing "cell get by (row, column)" and a NoData sentinel (spec section 6);
the `Raster` implementation is not among the sampled sources.  A read outside
the grid extent yields the grid's NoData sentinel. -/
def GridQ.get (g : GridQ) (row col : Int) : ℚ :=
  if 0 ≤ row ∧ row < (g.rows : Int) ∧ 0 ≤ col ∧ col < (g.columns : Int) then
    g.data (row, col)
  else g.nodata

/-- The mutable output raster, as a total assignment of cell values. -/
abbrev Out := Int × Int → ℚ

/-- Modelled from the spec: "cell set by (row, column)" of the external grid
store (spec section 6); a write outside the `R × C` extent is ignored. -/
def setCell (R C : Nat) (out : Out) (row col : Int) (v : ℚ) : Out :=
  fun p =>
    if p = (row, col) ∧ 0 ≤ row ∧ row < (R : Int) ∧ 0 ≤ col ∧ col < (C : Int) then v
    else out p

/-- The source's offset array `dx = [1, 1, 1, 0, -1, -1, -1, 0]` (column offsets,
slots NE, E, SE, S, SW, W, NW, N). -/
def dxTbl : List Int := [1, 1, 1, 0, -1, -1, -1, 0]

/-- The source's offset array `dy = [-1, 0, 1, 1, 1, 0, -1, -1]` (row offsets). -/
def dyTbl : List Int := [-1, 0, 1, 1, 1, 0, -1, -1]

/-- Column offset of slot `s` (indexing `dx`; slots produced by `pntrMatches`
are always `< 8`). -/
def dx (s : Nat) : Int := dxTbl.getD s 0

/-- Row offset of slot `s` (indexing `dy`). -/
def dy (s : Nat) : Int := dyTbl.getD s 0

/-- The source's `pntr_matches: [usize; 129]` array mapping Whitebox D8 pointer
values onto slots of `dx`/`dy`.  Entries `1, 2, 4, 8, 16, 32, 64, 128` are set
to slots `0..7`; all other entries keep the array default `0`.  Indexing the
array at `129` or beyond is a Rust out-of-range panic, returned as `none`. -/
def pntrMatches (d : Nat) : Option Nat :=
  if 129 ≤ d then none
  else
    some
      (if d = 1 then 0
       else if d = 2 then 1
       else if d = 4 then 2
       else if d = 8 then 3
       else if d = 16 then 4
       else if d = 32 then 5
       else if d = 64 then 6
       else if d = 128 then 7
       else 0)

/-- The cast `dir as usize` of the source: truncation toward zero, saturating
negative values to `0` (only applied where `0 < dir`). -/
def ratToUsize (q : ℚ) : Nat := (q.num / q.den).toNat

/-- The output update performed at a visited cell: `1` if the current value
equals the background value, otherwise the current value incremented by `1`. -/
def visitValue (bg v : ℚ) : ℚ := if v = bg then 1 else v + 1

/-- Result of the trace loop: `spin` is fuel exhaustion (the source loop never
terminates, see the file comment), `crashed` is a Rust panic from indexing
`pntr_matches` out of range, `done` is normal termination of the loop. -/
inductive TraceRes
  | spin
  | crashed
  | done (out : Out)

/-- Whether a trace result is a normal termination. -/
def TraceRes.isDone : TraceRes → Bool
  | .done _ => true
  | _ => false

/-- The trace loop of the source (`while !flag`), at current column `x` and row
`y`: write the visit update into the output, read `dir` from the back-link
raster, stop if `dir` is NoData or non-positive, otherwise move by the offsets
of `dir`'s slot and continue.  In the source the write precedes the direction
read; here the identical written output is passed along each branch. -/
def traceLoop (bk : GridQ) (R C : Nat) (bg : ℚ) : Nat → Int → Int → Out → TraceRes
  | 0, _, _, _ => .spin
  | n + 1, x, y, out =>
    if bk.get y x ≠ bk.nodata ∧ 0 < bk.get y x then
      match pntrMatches (ratToUsize (bk.get y x)) with
      | some s =>
          traceLoop bk R C bg n (x + dx s) (y + dy s)
            (setCell R C out y x (visitValue bg (out (y, x))))
      | none => .crashed
    else .done (setCell R C out y x (visitValue bg (out (y, x))))

/-- The positions a trace writes to, in visit order.  The control flow of the
trace loop depends only on the back-link raster and the position, never on the
output contents, so the visited positions are a function of the start position
and the fuel alone. -/
def tracePositions (bk : GridQ) : Nat → Int → Int → List (Int × Int)
  | 0, _, _ => []
  | n + 1, x, y =>
    if bk.get y x ≠ bk.nodata ∧ 0 < bk.get y x then
      match pntrMatches (ratToUsize (bk.get y x)) with
      | some s => (y, x) :: tracePositions bk n (x + dx s) (y + dy s)
      | none => [(y, x)]
    else [(y, x)]

/-- One step of the row-major scan at cell `p = (row, col)`: begin a trace when
`destination(p) > 0` and `pointer(p) ≠ NoData`; otherwise force the output cell
to NoData when `pointer(p) = NoData`; otherwise leave the output unchanged. -/
def scanCell (dest bk : GridQ) (fuel R C : Nat) (bg : ℚ) (out : Out) (p : Int × Int) :
    TraceRes :=
  if dest.get p.1 p.2 > 0 ∧ bk.get p.1 p.2 ≠ bk.nodata then
    traceLoop bk R C bg fuel p.2 p.1 out
  else if bk.get p.1 p.2 = bk.nodata then
    .done (setCell R C out p.1 p.2 bk.nodata)
  else .done out

/-- The scan over a list of cells; a crash or a non-terminating trace at any
cell ends the whole run there (the source either panics or loops forever). -/
def scanCells (dest bk : GridQ) (fuel R C : Nat) (bg : ℚ) :
    List (Int × Int) → Out → TraceRes
  | [], out => .done out
  | p :: rest, out =>
    match scanCell dest bk fuel R C bg out p with
    | .done o => scanCells dest bk fuel R C bg rest o
    | .crashed => .crashed
    | .spin => .spin

/-- The row-major cell enumeration `for row in 0..rows { for col in 0..columns }`. -/
def cellList (R C : Nat) : List (Int × Int) :=
  (List.range R).flatMap (fun r => (List.range C).map (fun (c : Nat) => ((r : Int), (c : Int))))

/-- The `background_val` local of the source before resolution: it starts as the
sentinel `f64::NEG_INFINITY` and is set to `0` by the `--zero_background` (or
`--esri_style`) flag. -/
inductive BgInit
  | negInf
  | val (q : ℚ)

/-- The value of `background_val` after argument parsing. -/
def parsedBackground (zeroBackground : Bool) : BgInit :=
  if zeroBackground then .val 0 else .negInf

/-- Resolution of the background value against the back-link raster's NoData
sentinel: `if background_val == f64::NEG_INFINITY { background_val = nodata }`. -/
def resolveBackground (zeroBackground : Bool) (nodata : ℚ) : ℚ :=
  match parsedBackground zeroBackground with
  | .negInf => nodata
  | .val v => v

/-- The freshly allocated output raster: `output.reinitialize_values(background_val)`. -/
def initOutput (bg : ℚ) : Out := fun _ => bg

/-- Result of a whole run: the dimension-mismatch `InvalidInput` error, a Rust
panic, a run that never terminates, or the finished output raster with its
dimensions. -/
inductive RunRes
  | invalidInput
  | crashed
  | spin
  | ok (rows columns : Nat) (out : Out)

/-- Constructor tag of a run result: `0` InvalidInput, `1` crashed, `2` spin,
`3` ok. -/
def RunRes.tag : RunRes → Nat
  | .invalidInput => 0
  | .crashed => 1
  | .spin => 2
  | .ok _ _ _ => 3

/-- The value the finished output raster holds at `(row, col)`, if the run
finished. -/
def RunRes.cellValue : RunRes → Int → Int → Option ℚ
  | .ok _ _ out, row, col => some (out (row, col))
  | _, _, _ => none

/-- The finished output raster of a run (junk constant for unfinished runs). -/
def outOf : RunRes → Out
  | .ok _ _ out => out
  | _ => fun _ => 0

/-- The core of `CostPathway::run` after the two input rasters are read: reject
mismatched dimensions with `InvalidInput` before any traversal, resolve the
background value against the back-link NoData sentinel, allocate the output at
the background value, and scan all cells in row-major order. -/
def runTool (dest bk : GridQ) (zeroBackground : Bool) : RunRes :=
  if dest.rows ≠ bk.rows ∨ dest.columns ≠ bk.columns then .invalidInput
  else
    match
      scanCells dest bk (dest.rows * dest.columns + 2) dest.rows dest.columns
        (resolveBackground zeroBackground bk.nodata) (cellList dest.rows dest.columns)
        (initOutput (resolveBackground zeroBackground bk.nodata)) with
    | .done out => .ok dest.rows dest.columns out
    | .crashed => .crashed
    | .spin => .spin

/-- The positions visited by the traces begun at the given scan cells, in scan
order. -/
def scanVisits (dest bk : GridQ) (fuel : Nat) : List (Int × Int) → List (Int × Int)
  | [] => []
  | p :: rest =>
    (if dest.get p.1 p.2 > 0 ∧ bk.get p.1 p.2 ≠ bk.nodata then
       tracePositions bk fuel p.2 p.1
     else []) ++ scanVisits dest bk fuel rest

/-- The positions visited by any trace of a full run. -/
def allTraceVisits (dest bk : GridQ) : List (Int × Int) :=
  scanVisits dest bk (dest.rows * dest.columns + 2) (cellList dest.rows dest.columns)

/-- Build a grid from a row-major list of rows. -/
def gridOfLists (nodata : ℚ) (l : List (List ℚ)) : GridQ where
  rows := l.length
  columns := (l.headD []).length
  nodata := nodata
  data := fun p => (l.getD p.1.toNat []).getD p.2.toNat nodata

/-- Removal of both kinds of quote character from a raw argument, as done by
the two `replace` calls at the top of the parsing loop. -/
def stripQuotes (s : List Char) : List Char :=
  s.filter (fun c => c ≠ '"' ∧ c ≠ Char.ofNat 39)

/-- The part of an argument before the first `=` (`vec[0]` of the source's
split), lower-cased; the flag spellings compared against are ASCII, for which
`Char.toLower` agrees with Rust's `to_lowercase`. -/
def argKey (s : List Char) : List Char :=
  ((stripQuotes s).takeWhile (fun c => c ≠ '=')).map Char.toLower

/-- Whether one argument selects the zero-background mode: the source compares
`vec[0].to_lowercase()` against `-zero_background`, `--zero_background` and
`--esri_style`. -/
def setsZeroBackground (s : List Char) : Bool :=
  argKey s = "-zero_background".toList ∨ argKey s = "--zero_background".toList ∨
    argKey s = "--esri_style".toList

/-- Whether the argument list selects the zero-background mode: the parsing
loop examines every argument and `background_val` is only ever set, never
reset. -/
def zeroBackgroundFlag (args : List (List Char)) : Bool :=
  args.any setsZeroBackground

/-! Concrete rasters used as witnesses, counterexamples and failing inputs.
All use NoData = `-1`. -/

/-- A 2 by 2 destination raster with one destination at `(1, 0)`. -/
def dest2x2 : GridQ := gridOfLists (-1) [[0, 0], [5, 0]]

/-- A 2 by 2 back-link raster holding the corrupt pointer value `3` (not one of
the eight D8 codes) at the destination `(1, 0)`. -/
def bk2x2corrupt3 : GridQ := gridOfLists (-1) [[-1, -1], [3, -1]]

/-- A 2 by 2 back-link raster holding the corrupt pointer value `200` (past the
end of the 129-entry `pntr_matches` array) at the destination `(1, 0)`. -/
def bk2x2corrupt200 : GridQ := gridOfLists (-1) [[-1, -1], [200, -1]]

/-- A 1 by 2 destination raster with one destination at `(0, 0)`. -/
def dest1x2cyc : GridQ := gridOfLists (-1) [[5, 0]]

/-- A 1 by 2 back-link raster forming a pointer cycle of length 2:
`(0,0)` points east (`2`), `(0,1)` points west (`32`). -/
def bk1x2cyc : GridQ := gridOfLists (-1) [[2, 32]]

/-- A 1 by 4 destination raster with destinations at `(0, 0)` and `(0, 2)`. -/
def dest1x4 : GridQ := gridOfLists (-1) [[5, 0, 5, 0]]

/-- A 1 by 4 back-link raster: `(0,0)` and `(0,1)` form a cycle; the second
destination `(0,2)` has the well-formed pointer `128` (north). -/
def bk1x4 : GridQ := gridOfLists (-1) [[2, 32, 128, -1]]

/-- A 2 by 1 destination raster with one destination at `(1, 0)`. -/
def dest2x1 : GridQ := gridOfLists (-1) [[0], [5]]

/-- A 2 by 1 back-link raster: the destination `(1, 0)` points north (`128`)
into the terminal cell `(0, 0)` whose pointer is NoData. -/
def bk2x1 : GridQ := gridOfLists (-1) [[-1], [128]]

/-- The destination raster of the 3 by 3 example of the spec. -/
def dest3x3 : GridQ := gridOfLists (-1) [[0, 0, 0], [0, 0, 0], [5, 0, 0]]

/-- The back-link raster of the 3 by 3 example of the spec: `16` at `(2, 0)`
and `(1, 0)`, NoData everywhere else. -/
def bk3x3ex : GridQ := gridOfLists (-1) [[-1, -1, -1], [16, -1, -1], [16, -1, -1]]

/-- A 1 by 1 destination raster with no destination. -/
def dest1x1 : GridQ := gridOfLists (-1) [[0]]

/-- A 1 by 1 back-link raster holding NoData. -/
def bk1x1 : GridQ := gridOfLists (-1) [[-1]]

/-- A 1 by 2 destination raster with no destination. -/
def dest1x2bg : GridQ := gridOfLists (-1) [[0, 0]]

/-- A 1 by 2 back-link raster: a valid pointer at `(0, 0)` and NoData at
`(0, 1)`; with no destination anywhere, no trace ever runs. -/
def bk1x2bg : GridQ := gridOfLists (-1) [[128, -1]]

/-- Coupling invariant between the outputs of two runs on the same inputs that
differ only in the background mode (`out0`: NoData background, `out1`: zero
background), relative to the list `V` of positions visited so far: at every
cell whose own pointer is not NoData, an unvisited cell still holds the
respective background, and a visited cell holds the same count, at least `1`,
in both runs. -/
def Inv (bk : GridQ) (V : List (Int × Int)) (out0 out1 : Out) : Prop :=
  ∀ p : Int × Int, bk.get p.1 p.2 ≠ bk.nodata →
    (p ∉ V → out0 p = bk.nodata ∧ out1 p = 0) ∧
    (p ∈ V → out0 p = out1 p ∧ 1 ≤ out0 p)

/-! Theorems. -/

/-- C2: the claim requires a `CorruptPointer` failure on illegal pointer codes
and an `OutOfBounds` failure on off-grid steps.  The code has neither: with
the corrupt code `3` at the destination, `pntr_matches[3]` silently yields
slot `0` (offset north-east), the trace continues into cell `(0, 1)` and the
run finishes normally (tag `3`, and `(0, 1)` was visited once); with the
corrupt code `200`, the 129-entry array is indexed out of range and the whole
run panics (tag `1`) instead of failing that one trace. -/
theorem c2_corrupt_pointer_not_rejected :
    (runTool dest2x2 bk2x2corrupt3 false).tag = 3 ∧
    (runTool dest2x2 bk2x2corrupt3 false).cellValue 0 1 = some 1 ∧
    (runTool dest2x2 bk2x2corrupt200 false).tag = 1 := by
  exact ⟨by decide, by decide, by decide⟩

/-- C3: the claim requires every trace to stop within `rows * columns`
iterations, failing with `LoopDetected` on a cycle.  The code has no iteration
bound: on the 2-cycle back-link raster `bk1x2cyc`, the trace loop started at
the destination `(0, 0)` exhausts every fuel bound (it alternates between the
two cells of the cycle forever), and the whole run never terminates (tag `2`),
producing no `LoopDetected` error. -/
theorem c3_cycle_spins_forever :
    (∀ (n : Nat) (out : Out),
        traceLoop bk1x2cyc 1 2 (-1) n 0 0 out = .spin ∧
        traceLoop bk1x2cyc 1 2 (-1) n 1 0 out = .spin) ∧
    (runTool dest1x2cyc bk1x2cyc false).tag = 2 := by
  constructor
  · intro n
    induction n with
    | zero => intro out; exact ⟨rfl, rfl⟩
    | succ n ih =>
      intro out
      refine ⟨?_, ?_⟩
      · have h : traceLoop bk1x2cyc 1 2 (-1) (n + 1) 0 0 out =
            traceLoop bk1x2cyc 1 2 (-1) n 1 0
              (setCell 1 2 out 0 0 (visitValue (-1) (out (0, 0)))) := rfl
        rw [h]
        exact (ih _).2
      · have h : traceLoop bk1x2cyc 1 2 (-1) (n + 1) 1 0 out =
            traceLoop bk1x2cyc 1 2 (-1) n 0 0
              (setCell 1 2 out 0 1 (visitValue (-1) (out (0, 1)))) := rfl
        rw [h]
        exact (ih _).1
  · decide

/-- C5: the claim requires per-trace failures to abort only the one trace in
which they occur.  On `dest1x4` / `bk1x4` the first destination's trace runs
into the 2-cycle and the whole run never terminates (tag `2`): the second
destination `(0, 2)` — whose own trace, run by itself, completes normally —
is never processed and no output raster is ever written. -/
theorem c5_failure_not_isolated :
    (runTool dest1x4 bk1x4 false).tag = 2 ∧
    (traceLoop bk1x4 1 4 (-1) 6 2 0 (initOutput (-1))).isDone = true := by
  exact ⟨by decide, by decide⟩

/-- C7 counterexample: on the exact 3 by 3 example input of the claim, the
finished default-mode run holds NoData (`-1`), not `1`, at cell `(1, 0)`:
pointer code `16` maps to the south-west offset (north is `128`), so the trace
from `(2, 0)` leaves the grid immediately and never reaches `(1, 0)`. -/
theorem c7_example_refuted :
    (runTool dest3x3 bk3x3ex false).cellValue 1 0 = some (-1) ∧
    (runTool dest3x3 bk3x3ex false).cellValue 1 0 ≠ some 1 := by
  exact ⟨by decide, by decide⟩

/-- C7 amended: on the example input, code `16` means south-west, so the trace
from `(2, 0)` visits only `(2, 0)` and steps off the grid.  In both background
modes the run finishes with `output(2,0) = 1`; cell `(1, 0)` (valid pointer,
never visited) holds the background value (`-1` default, `0` with
zero-background); every remaining cell has a NoData pointer and is forced to
NoData (`-1`) in both modes. -/
theorem c7_example_actual :
    ((runTool dest3x3 bk3x3ex false).tag = 3 ∧
     (runTool dest3x3 bk3x3ex false).cellValue 2 0 = some 1 ∧
     (runTool dest3x3 bk3x3ex false).cellValue 1 0 = some (-1) ∧
     (runTool dest3x3 bk3x3ex false).cellValue 0 0 = some (-1) ∧
     (runTool dest3x3 bk3x3ex false).cellValue 0 1 = some (-1) ∧
     (runTool dest3x3 bk3x3ex false).cellValue 0 2 = some (-1) ∧
     (runTool dest3x3 bk3x3ex false).cellValue 1 1 = some (-1) ∧
     (runTool dest3x3 bk3x3ex false).cellValue 1 2 = some (-1) ∧
     (runTool dest3x3 bk3x3ex false).cellValue 2 1 = some (-1) ∧
     (runTool dest3x3 bk3x3ex false).cellValue 2 2 = some (-1)) ∧
    ((runTool dest3x3 bk3x3ex true).tag = 3 ∧
     (runTool dest3x3 bk3x3ex true).cellValue 2 0 = some 1 ∧
     (runTool dest3x3 bk3x3ex true).cellValue 1 0 = some 0 ∧
     (runTool dest3x3 bk3x3ex true).cellValue 0 0 = some (-1) ∧
     (runTool dest3x3 bk3x3ex true).cellValue 0 1 = some (-1) ∧
     (runTool dest3x3 bk3x3ex true).cellValue 0 2 = some (-1) ∧
     (runTool dest3x3 bk3x3ex true).cellValue 1 1 = some (-1) ∧
     (runTool dest3x3 bk3x3ex true).cellValue 1 2 = some (-1) ∧
     (runTool dest3x3 bk3x3ex true).cellValue 2 1 = some (-1) ∧
     (runTool dest3x3 bk3x3ex true).cellValue 2 2 = some (-1)) := by
  exact ⟨⟨by decide, by decide, by decide, by decide, by decide, by decide, by decide,
    by decide, by decide, by decide⟩,
    ⟨by decide, by decide, by decide, by decide, by decide, by decide, by decide,
    by decide, by decide, by decide⟩⟩

/-- C4 counterexample: cell `(0, 0)` of `dest2x1` / `bk2x1` has a NoData
pointer and is not a destination, so the claim requires it to hold NoData
after the full scan; but the later trace from the destination `(1, 0)`
terminates in `(0, 0)` and writes `1` there, so the finished run holds `1`, not
NoData, at `(0, 0)`. -/
theorem c4_nodata_cell_overwritten_by_later_trace :
    bk2x1.get 0 0 = bk2x1.nodata ∧ ¬ dest2x1.get 0 0 > 0 ∧
    (runTool dest2x1 bk2x1 false).cellValue 0 0 = some 1 ∧ (1 : ℚ) ≠ bk2x1.nodata := by
  exact ⟨by decide, by decide, by decide, by decide⟩

/-- C8 counterexample: on the 1 by 1 input whose only cell has a NoData
pointer, the zero-background run holds `-1` (NoData), not `0`, at the cell
although no trace visits it; and on `dest2x1` / `bk2x1` the trace-visited cell
`(0, 0)` holds `1` in the NoData-background run but `0` in the zero-background
run, so visited-cell counts differ between the two modes. -/
theorem c8_background_option_refuted :
    ((runTool dest1x1 bk1x1 true).cellValue 0 0 = some (-1) ∧
     allTraceVisits dest1x1 bk1x1 = [] ∧ (-1 : ℚ) ≠ 0) ∧
    ((0, 0) ∈ allTraceVisits dest2x1 bk2x1 ∧
     (runTool dest2x1 bk2x1 false).cellValue 0 0 = some 1 ∧
     (runTool dest2x1 bk2x1 true).cellValue 0 0 = some 0) := by
  exact ⟨⟨by decide, by decide, by decide⟩, ⟨by decide, by decide, by decide⟩⟩

/-- C9: the background value is the back-link (pointer) raster's NoData
sentinel unless the zero-background option is set, in which case it is `0`;
and every cell of the freshly allocated output raster holds exactly this
background value. -/
theorem c9_background_value (z : Bool) (bk : GridQ) (p : Int × Int) :
    resolveBackground z bk.nodata = (if z then 0 else bk.nodata) ∧
    initOutput (resolveBackground z bk.nodata) p = (if z then 0 else bk.nodata) := by
  cases z <;> exact ⟨rfl, rfl⟩

/-- C10: the undocumented `--esri_style` flag is an exact alias of
`--zero_background`: appending either flag to any argument list makes the
zero-background comparison of the parsing loop succeed, so the two runs are
identical on every pair of input rasters. -/
theorem c10_esri_style_alias (dest bk : GridQ) (args : List (List Char)) :
    runTool dest bk (zeroBackgroundFlag (args ++ ["--esri_style".toList])) =
    runTool dest bk (zeroBackgroundFlag (args ++ ["--zero_background".toList])) := by
  have he : setsZeroBackground ("--esri_style".toList) = true := by decide
  have hz : setsZeroBackground ("--zero_background".toList) = true := by decide
  have key : ∀ t, setsZeroBackground t = true → zeroBackgroundFlag (args ++ [t]) = true := by
    intro t ht
    simp [zeroBackgroundFlag, List.any_append, ht]
  rw [key _ he, key _ hz]

/-- C6: mismatched row or column counts make the run fail with the
`InvalidInput` error before any traversal and no output raster exists; a run
that finishes returns an output raster whose dimensions equal those of both
input rasters. -/
theorem c6_dimension_check (dest bk : GridQ) (z : Bool) :
    (dest.rows ≠ bk.rows ∨ dest.columns ≠ bk.columns → runTool dest bk z = .invalidInput) ∧
    (∀ R C out, runTool dest bk z = .ok R C out →
      R = dest.rows ∧ C = dest.columns ∧ R = bk.rows ∧ C = bk.columns) := by
  constructor
  · intro h
    simp only [runTool, if_pos h]
  · intro R C out h
    by_cases hd : dest.rows ≠ bk.rows ∨ dest.columns ≠ bk.columns
    · rw [runTool, if_pos hd] at h
      cases h
    · rw [runTool, if_neg hd] at h
      push_neg at hd
      split at h
      · injection h with h1 h2 _
        exact ⟨h1.symm, h2.symm, h1.symm.trans hd.1, h2.symm.trans hd.2⟩
      · cases h
      · cases h

/-- Witness for C6: the 1 by 1 and 1 by 2 rasters differ in columns and the
run fails with `InvalidInput`; the matching 1 by 1 run finishes with 1 by 1
output dimensions. -/
theorem c6_dimension_check_w :
    runTool dest1x1 bk1x2bg false = .invalidInput ∧
    (1 = dest1x1.rows ∧ 1 = dest1x1.columns ∧ 1 = bk1x1.rows ∧ 1 = bk1x1.columns) := by
  constructor
  · exact (c6_dimension_check dest1x1 bk1x2bg false).1 (by decide)
  · exact (c6_dimension_check dest1x1 bk1x1 false).2 1 1
      (outOf (runTool dest1x1 bk1x1 false)) rfl

/-- C1: the row-major scan begins a trace at `(r, c)` exactly under the
condition `destination(r,c) > 0` and `pointer(r,c) ≠ NoData`; each iteration of
the trace loop first writes the visit update (set to `1` on background,
otherwise increment by `1`), then reads the pointer `dir` at the current cell:
the loop terminates precisely when `dir` is NoData or non-positive, and
otherwise moves the position by the direction-table offset of `dir` and
continues. -/
theorem c1_trace_step_semantics (dest bk : GridQ) (fuel R C : Nat) (bg : ℚ) (out : Out)
    (r c x y : Int) (n : Nat) :
    (dest.get r c > 0 ∧ bk.get r c ≠ bk.nodata →
      scanCell dest bk fuel R C bg out (r, c) = traceLoop bk R C bg fuel c r out) ∧
    (bk.get y x = bk.nodata ∨ bk.get y x ≤ 0 →
      traceLoop bk R C bg (n + 1) x y out =
        .done (setCell R C out y x (if out (y, x) = bg then 1 else out (y, x) + 1))) ∧
    (∀ s, bk.get y x ≠ bk.nodata → 0 < bk.get y x →
      pntrMatches (ratToUsize (bk.get y x)) = some s →
      traceLoop bk R C bg (n + 1) x y out =
        traceLoop bk R C bg n (x + dx s) (y + dy s)
          (setCell R C out y x (if out (y, x) = bg then 1 else out (y, x) + 1))) := by
  refine ⟨?_, ?_, ?_⟩
  · intro h
    simp only [scanCell, if_pos h]
  · intro h
    have hc : ¬ (bk.get y x ≠ bk.nodata ∧ 0 < bk.get y x) := by
      rcases h with h | h
      · exact fun hh => hh.1 h
      · exact fun hh => absurd hh.2 (not_lt.mpr h)
    simp only [traceLoop, if_neg hc, visitValue]
  · intro s h1 h2 hs
    simp only [traceLoop, if_pos (And.intro h1 h2), hs, visitValue]

/-- Witness for C1: on the 3 by 3 example raster, the scan at the destination
`(2, 0)` begins a trace; the loop at the NoData-pointer cell `(0, 0)`
terminates with the visit update written; the loop at `(2, 0)` (pointer `16`,
slot `4`) moves by the slot-4 offsets and continues. -/
theorem c1_trace_step_semantics_w :
    (scanCell dest3x3 bk3x3ex 11 3 3 (-1) (initOutput (-1)) (2, 0) =
      traceLoop bk3x3ex 3 3 (-1) 11 0 2 (initOutput (-1))) ∧
    (traceLoop bk3x3ex 3 3 (-1) 1 0 0 (initOutput (-1)) =
      .done (setCell 3 3 (initOutput (-1)) 0 0
        (if initOutput (-1) (0, 0) = (-1) then 1 else initOutput (-1) (0, 0) + 1))) ∧
    (traceLoop bk3x3ex 3 3 (-1) 1 0 2 (initOutput (-1)) =
      traceLoop bk3x3ex 3 3 (-1) 0 (0 + dx 4) (2 + dy 4)
        (setCell 3 3 (initOutput (-1)) 2 0
          (if initOutput (-1) (2, 0) = (-1) then 1 else initOutput (-1) (2, 0) + 1))) := by
  refine ⟨?_, ?_, ?_⟩
  · exact (c1_trace_step_semantics dest3x3 bk3x3ex 11 3 3 (-1) (initOutput (-1))
      2 0 0 2 0).1 (by decide)
  · exact (c1_trace_step_semantics dest3x3 bk3x3ex 11 3 3 (-1) (initOutput (-1))
      2 0 0 0 0).2.1 (Or.inl (by decide))
  · exact (c1_trace_step_semantics dest3x3 bk3x3ex 11 3 3 (-1) (initOutput (-1))
      2 0 0 2 0).2.2 4 (by decide) (by decide) (by decide)

/-- A cell whose grid read differs from the NoData sentinel lies inside the
grid (an out-of-range read yields the sentinel). -/
theorem get_ne_nodata_bounds (g : GridQ) (row col : Int) (h : g.get row col ≠ g.nodata) :
    0 ≤ row ∧ row < (g.rows : Int) ∧ 0 ≤ col ∧ col < (g.columns : Int) := by
  by_contra hb
  rw [GridQ.get, if_neg hb] at h
  exact h rfl

/-- Reading back the cell just written, for an in-range write. -/
theorem setCell_self (R C : Nat) (out : Out) (row col : Int) (v : ℚ)
    (h : 0 ≤ row ∧ row < (R : Int) ∧ 0 ≤ col ∧ col < (C : Int)) :
    setCell R C out row col v (row, col) = v := by
  show (if (row, col) = (row, col) ∧ 0 ≤ row ∧ row < (R : Int) ∧ 0 ≤ col ∧ col < (C : Int)
      then v else out (row, col)) = v
  exact if_pos (And.intro rfl h)

/-- A write leaves every other cell unchanged. -/
theorem setCell_ne (R C : Nat) (out : Out) (row col : Int) (v : ℚ) (p : Int × Int)
    (h : p ≠ (row, col)) : setCell R C out row col v p = out p := by
  simp only [setCell]
  rw [if_neg]
  exact fun hc => h hc.1

/-- Scanning a concatenation of cell lists is scanning the first list and
continuing with the second from its result. -/
theorem scanCells_append (dest bk : GridQ) (fuel R C : Nat) (bg : ℚ)
    (l1 l2 : List (Int × Int)) (out : Out) :
    scanCells dest bk fuel R C bg (l1 ++ l2) out =
      match scanCells dest bk fuel R C bg l1 out with
      | .done o => scanCells dest bk fuel R C bg l2 o
      | .crashed => .crashed
      | .spin => .spin := by
  induction l1 generalizing out with
  | nil => rfl
  | cons p rest ih =>
    simp only [List.cons_append, scanCells]
    rcases hsc : scanCell dest bk fuel R C bg out p with _ | _ | o <;> simp only []
    · exact ih o

/-- Frame property of the trace loop: a finished trace changes the output only
at its visited positions. -/
theorem traceLoop_frame (bk : GridQ) (R C : Nat) (bg : ℚ) :
    ∀ (n : Nat) (x y : Int) (out o : Out) (p : Int × Int),
      p ∉ tracePositions bk n x y →
      traceLoop bk R C bg n x y out = .done o → o p = out p := by
  intro n
  induction n with
  | zero =>
    intro x y out o p _ h
    cases h
  | succ n ih =>
    intro x y out o p hp h
    rw [traceLoop] at h
    rw [tracePositions] at hp
    by_cases hc : bk.get y x ≠ bk.nodata ∧ 0 < bk.get y x
    · rw [if_pos hc] at h hp
      rcases hm : pntrMatches (ratToUsize (bk.get y x)) with _ | s
      · rw [hm] at h
        cases h
      · rw [hm] at h hp
        have hp1 : p ≠ (y, x) := fun he => hp (he ▸ List.mem_cons_self _ _)
        have hp2 : p ∉ tracePositions bk n (x + dx s) (y + dy s) :=
          fun hmem => hp (List.mem_cons_of_mem _ hmem)
        rw [ih (x + dx s) (y + dy s) _ o p hp2 h]
        exact setCell_ne R C out y x _ p hp1
    · rw [if_neg hc] at h hp
      injection h with ho
      have hp1 : p ≠ (y, x) := by simpa using hp
      rw [← ho]
      exact setCell_ne R C out y x _ p hp1

/-- Membership in the row-major cell enumeration is exactly being inside the
grid extent. -/
theorem mem_cellList (R C : Nat) (p : Int × Int) :
    p ∈ cellList R C ↔ 0 ≤ p.1 ∧ p.1 < (R : Int) ∧ 0 ≤ p.2 ∧ p.2 < (C : Int) := by
  constructor
  · intro h
    rw [cellList] at h
    obtain ⟨r, hr, hmem⟩ := List.mem_flatMap.mp h
    obtain ⟨c, hc, he⟩ := List.mem_map.mp hmem
    rw [List.mem_range] at hr hc
    subst he
    refine ⟨?_, ?_, ?_, ?_⟩
    · show (0 : Int) ≤ (r : Int)
      omega
    · show ((r : Int)) < (R : Int)
      omega
    · show (0 : Int) ≤ (c : Int)
      omega
    · show ((c : Int)) < (C : Int)
      omega
  · rintro ⟨h1, h2, h3, h4⟩
    rw [cellList]
    refine List.mem_flatMap.mpr ⟨p.1.toNat, ?_, ?_⟩
    · rw [List.mem_range]
      omega
    · refine List.mem_map.mpr ⟨p.2.toNat, ?_, ?_⟩
      · rw [List.mem_range]
        omega
      · rw [Int.toNat_of_nonneg h1, Int.toNat_of_nonneg h3]

/-- The row-major cell enumeration lists every cell exactly once. -/
theorem cellList_nodup (R C : Nat) : (cellList R C).Nodup := by
  rw [cellList, List.nodup_flatMap]
  constructor
  · intro r _
    refine List.Nodup.map ?_ (List.nodup_range C)
    intro a b hab
    simpa using congrArg Prod.snd hab
  · refine List.Pairwise.imp ?_ (List.pairwise_lt_range R)
    intro a b hab
    simp only [Function.onFun]
    intro q hqa hqb
    obtain ⟨c1, _, he1⟩ := List.mem_map.mp hqa
    obtain ⟨c2, _, he2⟩ := List.mem_map.mp hqb
    have hfst : ((a : Int)) = ((b : Int)) := by
      have := congrArg Prod.fst (he1.trans he2.symm)
      simpa using this
    have : a = b := by exact_mod_cast hfst
    omega

/-- A scan step at a cell whose own pointer is NoData forces the output cell to
NoData, whatever the destination value there is. -/
theorem scanCell_nodata (dest bk : GridQ) (fuel R C : Nat) (bg : ℚ) (out : Out)
    (p : Int × Int) (hnd : bk.get p.1 p.2 = bk.nodata) :
    scanCell dest bk fuel R C bg out p = .done (setCell R C out p.1 p.2 bk.nodata) := by
  rw [scanCell, if_neg (fun hh => hh.2 hnd), if_pos hnd]

/-- Scanning a list of cells that never visits `p` by a trace and never scans
`p` itself leaves the output at `p` unchanged. -/
theorem scanCells_preserve (dest bk : GridQ) (fuel R C : Nat) (bg : ℚ) (p : Int × Int) :
    ∀ (l : List (Int × Int)) (out o : Out),
      (∀ q ∈ l, dest.get q.1 q.2 > 0 → bk.get q.1 q.2 ≠ bk.nodata →
        p ∉ tracePositions bk fuel q.2 q.1) →
      (∀ q ∈ l, q ≠ p) →
      scanCells dest bk fuel R C bg l out = .done o → o p = out p := by
  intro l
  induction l with
  | nil =>
    intro out o _ _ h
    rw [scanCells] at h
    injection h with h'
    rw [← h']
  | cons q rest ih =>
    intro out o htr hne h
    rw [scanCells] at h
    by_cases hq : dest.get q.1 q.2 > 0 ∧ bk.get q.1 q.2 ≠ bk.nodata
    · rw [scanCell, if_pos hq] at h
      rcases htl : traceLoop bk R C bg fuel q.2 q.1 out with _ | _ | o1
      · rw [htl] at h
        cases h
      · rw [htl] at h
        cases h
      · rw [htl] at h
        have h1 : o1 p = out p := traceLoop_frame bk R C bg fuel q.2 q.1 out o1 p
          (htr q (List.mem_cons_self q rest) hq.1 hq.2) htl
        rw [ih o1 o (fun q' hq' => htr q' (List.mem_cons_of_mem q hq'))
          (fun q' hq' => hne q' (List.mem_cons_of_mem q hq')) h, h1]
    · by_cases hnd : bk.get q.1 q.2 = bk.nodata
      · rw [scanCell_nodata dest bk fuel R C bg out q hnd] at h
        have h1 : setCell R C out q.1 q.2 bk.nodata p = out p :=
          setCell_ne R C out q.1 q.2 bk.nodata p
            (fun he => (hne q (List.mem_cons_self q rest)) (he ▸ rfl))
        rw [ih _ o (fun q' hq' => htr q' (List.mem_cons_of_mem q hq'))
          (fun q' hq' => hne q' (List.mem_cons_of_mem q hq')) h, h1]
      · rw [scanCell, if_neg hq, if_neg hnd] at h
        exact ih out o (fun q' hq' => htr q' (List.mem_cons_of_mem q hq'))
          (fun q' hq' => hne q' (List.mem_cons_of_mem q hq')) h

/-- C4 amended: a cell `(r, c)` whose pointer is NoData is forced to NoData at
the moment it is scanned, overriding any value previously written there by an
earlier trace; and it still holds NoData after the full scan provided no trace
begun at a destination scanned after `(r, c)` visits `(r, c)` (the original
claim, without this proviso, is refuted by
`c4_nodata_cell_overwritten_by_later_trace`). -/
theorem c4_scan_time_domain_exclusion (dest bk : GridQ) (z : Bool)
    (pre post : List (Int × Int)) (r c : Int)
    (hsplit : cellList dest.rows dest.columns = pre ++ (r, c) :: post)
    (hnd : bk.get r c = bk.nodata)
    (hdims : dest.rows = bk.rows ∧ dest.columns = bk.columns)
    (hlater : ∀ q ∈ post, dest.get q.1 q.2 > 0 → bk.get q.1 q.2 ≠ bk.nodata →
      (r, c) ∉ tracePositions bk (dest.rows * dest.columns + 2) q.2 q.1) :
    (∀ (out mid : Out),
      scanCells dest bk (dest.rows * dest.columns + 2) dest.rows dest.columns
        (resolveBackground z bk.nodata) (pre ++ [(r, c)]) out = .done mid →
      mid (r, c) = bk.nodata) ∧
    (∀ fout, runTool dest bk z = .ok dest.rows dest.columns fout →
      fout (r, c) = bk.nodata) := by
  have hmemcell : ((r, c) : Int × Int) ∈ cellList dest.rows dest.columns := by
    rw [hsplit]
    exact List.mem_append_right pre (List.mem_cons_self _ post)
  have hb := (mem_cellList dest.rows dest.columns (r, c)).mp hmemcell
  have hstep : ∀ (out mid : Out),
      scanCells dest bk (dest.rows * dest.columns + 2) dest.rows dest.columns
        (resolveBackground z bk.nodata) (pre ++ [(r, c)]) out = .done mid →
      mid (r, c) = bk.nodata := by
    intro out mid h
    rw [scanCells_append] at h
    rcases hpre : scanCells dest bk (dest.rows * dest.columns + 2) dest.rows dest.columns
        (resolveBackground z bk.nodata) pre out with _ | _ | o1
    · rw [hpre] at h
      cases h
    · rw [hpre] at h
      cases h
    · rw [hpre] at h
      have h2 : scanCells dest bk (dest.rows * dest.columns + 2) dest.rows dest.columns
          (resolveBackground z bk.nodata) [(r, c)] o1 = .done mid := h
      rw [scanCells, scanCell_nodata dest bk _ _ _ _ o1 (r, c) hnd] at h2
      have h3 : scanCells dest bk (dest.rows * dest.columns + 2) dest.rows dest.columns
          (resolveBackground z bk.nodata) []
          (setCell dest.rows dest.columns o1 r c bk.nodata) = .done mid := h2
      rw [scanCells] at h3
      injection h3 with h'
      rw [← h']
      exact setCell_self dest.rows dest.columns o1 r c bk.nodata hb
  refine ⟨hstep, ?_⟩
  intro fout h
  have hne : dest.rows ≠ bk.rows ∨ dest.columns ≠ bk.columns → False := by
    rintro (h' | h')
    · exact h' hdims.1
    · exact h' hdims.2
  rw [runTool, if_neg hne] at h
  rcases hfull : scanCells dest bk (dest.rows * dest.columns + 2) dest.rows dest.columns
      (resolveBackground z bk.nodata) (cellList dest.rows dest.columns)
      (initOutput (resolveBackground z bk.nodata)) with _ | _ | o
  · rw [hfull] at h
    cases h
  · rw [hfull] at h
    cases h
  · rw [hfull] at h
    injection h with _ _ ho
    have hnodup : (pre ++ (r, c) :: post).Nodup := by
      rw [← hsplit]
      exact cellList_nodup dest.rows dest.columns
    have hpost : ((r, c) : Int × Int) ∉ post :=
      (List.nodup_cons.mp (hnodup.of_append_right)).1
    rw [hsplit, List.append_cons, scanCells_append] at hfull
    rcases hmid : scanCells dest bk (dest.rows * dest.columns + 2) dest.rows dest.columns
        (resolveBackground z bk.nodata) (pre ++ [(r, c)])
        (initOutput (resolveBackground z bk.nodata)) with _ | _ | mid
    · rw [hmid] at hfull
      cases hfull
    · rw [hmid] at hfull
      cases hfull
    · rw [hmid] at hfull
      have hmidv := hstep _ mid hmid
      have hrest := scanCells_preserve dest bk (dest.rows * dest.columns + 2)
        dest.rows dest.columns (resolveBackground z bk.nodata) (r, c) post mid o hlater
        (fun q hq => fun he => hpost (he ▸ hq)) hfull
      rw [← ho, hrest, hmidv]

/-- Witness for C4: on the 1 by 1 raster whose only cell has a NoData pointer,
the finished run holds NoData at that cell, and the scan-time step also forces
it. -/
theorem c4_scan_time_domain_exclusion_w :
    outOf (runTool dest1x1 bk1x1 false) (0, 0) = bk1x1.nodata := by
  have h := c4_scan_time_domain_exclusion dest1x1 bk1x1 false [] [] 0 0 (by decide)
    (by decide) ⟨by decide, by decide⟩ (fun q hq => absurd hq (List.not_mem_nil q))
  exact h.2 (outOf (runTool dest1x1 bk1x1 false)) rfl

/-- The visit write of the two coupled runs preserves the coupling invariant,
recording the visited position. -/
theorem inv_visit (bk : GridQ) (R C : Nat) (hR : R = bk.rows) (hC : C = bk.columns)
    (hn : bk.nodata < 0) (V : List (Int × Int)) (out0 out1 : Out)
    (h : Inv bk V out0 out1) (x y : Int) :
    Inv bk (V ++ [(y, x)])
      (setCell R C out0 y x (visitValue bk.nodata (out0 (y, x))))
      (setCell R C out1 y x (visitValue 0 (out1 (y, x)))) := by
  subst hR
  subst hC
  intro p hp
  by_cases hpe : p = ((y, x) : Int × Int)
  · subst hpe
    have hp' : bk.get y x ≠ bk.nodata := hp
    have hb := get_ne_nodata_bounds bk y x hp'
    constructor
    · intro hnot
      exact absurd (List.mem_append_right V (List.mem_singleton_self _)) hnot
    · intro _
      rw [setCell_self _ _ _ _ _ _ hb, setCell_self _ _ _ _ _ _ hb]
      by_cases hv : ((y, x) : Int × Int) ∈ V
      · obtain ⟨he, h1⟩ := (h (y, x) hp').2 hv
        have hne0 : out0 (y, x) ≠ bk.nodata := by
          intro heq
          rw [heq] at h1
          linarith
        have h1' : 1 ≤ out1 (y, x) := he ▸ h1
        have hne1 : out1 (y, x) ≠ 0 := by
          intro heq
          rw [heq] at h1'
          linarith
        rw [visitValue, visitValue, if_neg hne0, if_neg hne1, he]
        exact ⟨rfl, by linarith⟩
      · obtain ⟨he0, he1⟩ := (h (y, x) hp').1 hv
        rw [visitValue, visitValue, he0, he1, if_pos rfl, if_pos rfl]
        exact ⟨rfl, le_refl 1⟩
  · rw [setCell_ne _ _ _ _ _ _ _ hpe, setCell_ne _ _ _ _ _ _ _ hpe]
    constructor
    · intro hnot
      exact (h p hp).1 (fun hv => hnot (List.mem_append_left _ hv))
    · intro hin
      rcases List.mem_append.mp hin with hv | hone
      · exact (h p hp).2 hv
      · exact absurd (List.mem_singleton.mp hone) hpe

/-- The two coupled traces (NoData background versus zero background) take the
same control path — the loop reads only the back-link raster — and preserve the
coupling invariant, extending the visited list by the trace's positions. -/
theorem trace_par (bk : GridQ) (R C : Nat) (hR : R = bk.rows) (hC : C = bk.columns)
    (hn : bk.nodata < 0) :
    ∀ (n : Nat) (x y : Int) (V : List (Int × Int)) (out0 out1 : Out),
      Inv bk V out0 out1 →
      (traceLoop bk R C bk.nodata n x y out0 = .spin ∧
        traceLoop bk R C 0 n x y out1 = .spin) ∨
      (traceLoop bk R C bk.nodata n x y out0 = .crashed ∧
        traceLoop bk R C 0 n x y out1 = .crashed) ∨
      (∃ o0 o1, traceLoop bk R C bk.nodata n x y out0 = .done o0 ∧
        traceLoop bk R C 0 n x y out1 = .done o1 ∧
        Inv bk (V ++ tracePositions bk n x y) o0 o1) := by
  intro n
  induction n with
  | zero =>
    intro x y V out0 out1 _
    exact Or.inl ⟨rfl, rfl⟩
  | succ n ih =>
    intro x y V out0 out1 hInv
    have hInv' := inv_visit bk R C hR hC hn V out0 out1 hInv x y
    by_cases hc : bk.get y x ≠ bk.nodata ∧ 0 < bk.get y x
    · rcases hm : pntrMatches (ratToUsize (bk.get y x)) with _ | s
      · refine Or.inr (Or.inl ⟨?_, ?_⟩) <;> rw [traceLoop, if_pos hc, hm]
      · rcases ih (x + dx s) (y + dy s) (V ++ [(y, x)]) _ _ hInv' with
          ⟨h0, h1⟩ | ⟨h0, h1⟩ | ⟨o0, o1, h0, h1, hI⟩
        · refine Or.inl ⟨?_, ?_⟩
          · rw [traceLoop, if_pos hc, hm]
            exact h0
          · rw [traceLoop, if_pos hc, hm]
            exact h1
        · refine Or.inr (Or.inl ⟨?_, ?_⟩)
          · rw [traceLoop, if_pos hc, hm]
            exact h0
          · rw [traceLoop, if_pos hc, hm]
            exact h1
        · refine Or.inr (Or.inr ⟨o0, o1, ?_, ?_, ?_⟩)
          · rw [traceLoop, if_pos hc, hm]
            exact h0
          · rw [traceLoop, if_pos hc, hm]
            exact h1
          · rw [tracePositions, if_pos hc, hm]
            have ha : V ++ (y, x) :: tracePositions bk n (x + dx s) (y + dy s) =
                (V ++ [(y, x)]) ++ tracePositions bk n (x + dx s) (y + dy s) := by
              simp
            rw [ha]
            exact hI
    · refine Or.inr (Or.inr ⟨setCell R C out0 y x (visitValue bk.nodata (out0 (y, x))),
        setCell R C out1 y x (visitValue 0 (out1 (y, x))), ?_, ?_, ?_⟩)
      · rw [traceLoop, if_neg hc]
      · rw [traceLoop, if_neg hc]
      · rw [tracePositions, if_neg hc]
        exact hInv'

/-- The two coupled scans preserve the coupling invariant, extending the
visited list by all positions of the traces begun along the way. -/
theorem scan_par (dest bk : GridQ) (R C : Nat) (hR : R = bk.rows) (hC : C = bk.columns)
    (hn : bk.nodata < 0) (fuel : Nat) :
    ∀ (cells V : List (Int × Int)) (out0 out1 : Out),
      Inv bk V out0 out1 →
      (scanCells dest bk fuel R C bk.nodata cells out0 = .spin ∧
        scanCells dest bk fuel R C 0 cells out1 = .spin) ∨
      (scanCells dest bk fuel R C bk.nodata cells out0 = .crashed ∧
        scanCells dest bk fuel R C 0 cells out1 = .crashed) ∨
      (∃ o0 o1, scanCells dest bk fuel R C bk.nodata cells out0 = .done o0 ∧
        scanCells dest bk fuel R C 0 cells out1 = .done o1 ∧
        Inv bk (V ++ scanVisits dest bk fuel cells) o0 o1) := by
  intro cells
  induction cells with
  | nil =>
    intro V out0 out1 h
    refine Or.inr (Or.inr ⟨out0, out1, rfl, rfl, ?_⟩)
    rw [scanVisits, List.append_nil]
    exact h
  | cons q rest ih =>
    intro V out0 out1 hInv
    by_cases hq : dest.get q.1 q.2 > 0 ∧ bk.get q.1 q.2 ≠ bk.nodata
    · rcases trace_par bk R C hR hC hn fuel q.2 q.1 V out0 out1 hInv with
        ⟨h0, h1⟩ | ⟨h0, h1⟩ | ⟨o0, o1, h0, h1, hI⟩
      · refine Or.inl ⟨?_, ?_⟩
        · rw [scanCells, scanCell, if_pos hq, h0]
        · rw [scanCells, scanCell, if_pos hq, h1]
      · refine Or.inr (Or.inl ⟨?_, ?_⟩)
        · rw [scanCells, scanCell, if_pos hq, h0]
        · rw [scanCells, scanCell, if_pos hq, h1]
      · rcases ih (V ++ tracePositions bk fuel q.2 q.1) o0 o1 hI with
          ⟨h0', h1'⟩ | ⟨h0', h1'⟩ | ⟨f0, f1, h0', h1', hI'⟩
        · refine Or.inl ⟨?_, ?_⟩
          · rw [scanCells, scanCell, if_pos hq, h0]
            exact h0'
          · rw [scanCells, scanCell, if_pos hq, h1]
            exact h1'
        · refine Or.inr (Or.inl ⟨?_, ?_⟩)
          · rw [scanCells, scanCell, if_pos hq, h0]
            exact h0'
          · rw [scanCells, scanCell, if_pos hq, h1]
            exact h1'
        · refine Or.inr (Or.inr ⟨f0, f1, ?_, ?_, ?_⟩)
          · rw [scanCells, scanCell, if_pos hq, h0]
            exact h0'
          · rw [scanCells, scanCell, if_pos hq, h1]
            exact h1'
          · rw [scanVisits, if_pos hq, ← List.append_assoc]
            exact hI'
    · by_cases hnd : bk.get q.1 q.2 = bk.nodata
      · have hInv2 : Inv bk V (setCell R C out0 q.1 q.2 bk.nodata)
            (setCell R C out1 q.1 q.2 bk.nodata) := by
          intro p hp
          have hpq : p ≠ (q.1, q.2) := by
            intro he
            rw [he] at hp
            exact hp hnd
          rw [setCell_ne _ _ _ _ _ _ _ hpq, setCell_ne _ _ _ _ _ _ _ hpq]
          exact hInv p hp
        rcases ih V _ _ hInv2 with ⟨h0', h1'⟩ | ⟨h0', h1'⟩ | ⟨f0, f1, h0', h1', hI'⟩
        · refine Or.inl ⟨?_, ?_⟩
          · rw [scanCells, scanCell_nodata dest bk fuel R C bk.nodata out0 q hnd]
            exact h0'
          · rw [scanCells, scanCell_nodata dest bk fuel R C 0 out1 q hnd]
            exact h1'
        · refine Or.inr (Or.inl ⟨?_, ?_⟩)
          · rw [scanCells, scanCell_nodata dest bk fuel R C bk.nodata out0 q hnd]
            exact h0'
          · rw [scanCells, scanCell_nodata dest bk fuel R C 0 out1 q hnd]
            exact h1'
        · refine Or.inr (Or.inr ⟨f0, f1, ?_, ?_, ?_⟩)
          · rw [scanCells, scanCell_nodata dest bk fuel R C bk.nodata out0 q hnd]
            exact h0'
          · rw [scanCells, scanCell_nodata dest bk fuel R C 0 out1 q hnd]
            exact h1'
          · rw [scanVisits, if_neg hq, List.nil_append]
            exact hI'
      · rcases ih V out0 out1 hInv with ⟨h0', h1'⟩ | ⟨h0', h1'⟩ | ⟨f0, f1, h0', h1', hI'⟩
        · refine Or.inl ⟨?_, ?_⟩
          · rw [scanCells, scanCell, if_neg hq, if_neg hnd]
            exact h0'
          · rw [scanCells, scanCell, if_neg hq, if_neg hnd]
            exact h1'
        · refine Or.inr (Or.inl ⟨?_, ?_⟩)
          · rw [scanCells, scanCell, if_neg hq, if_neg hnd]
            exact h0'
          · rw [scanCells, scanCell, if_neg hq, if_neg hnd]
            exact h1'
        · refine Or.inr (Or.inr ⟨f0, f1, ?_, ?_, ?_⟩)
          · rw [scanCells, scanCell, if_neg hq, if_neg hnd]
            exact h0'
          · rw [scanCells, scanCell, if_neg hq, if_neg hnd]
            exact h1'
          · rw [scanVisits, if_neg hq, List.nil_append]
            exact hI'

/-- C8 amended: two finished runs on the same inputs differing only in the
zero-background option satisfy, at every cell whose own pointer is not NoData
(cells with a NoData pointer are forced to NoData in both modes, refuting the
original claim) and for a negative NoData sentinel: a cell not visited by any
trace holds NoData in the default run and `0` in the zero-background run, and
a trace-visited cell holds the identical count, at least `1`, in both runs. -/
theorem c8_background_mode_relation (dest bk : GridQ) (hn : bk.nodata < 0)
    (R0 C0 R1 C1 : Nat) (out0 out1 : Out)
    (h0 : runTool dest bk false = .ok R0 C0 out0)
    (h1 : runTool dest bk true = .ok R1 C1 out1)
    (p : Int × Int) (hp : bk.get p.1 p.2 ≠ bk.nodata) :
    (p ∉ allTraceVisits dest bk → out0 p = bk.nodata ∧ out1 p = 0) ∧
    (p ∈ allTraceVisits dest bk → out0 p = out1 p ∧ 1 ≤ out0 p) := by
  by_cases hd : dest.rows ≠ bk.rows ∨ dest.columns ≠ bk.columns
  · rw [runTool, if_pos hd] at h0
    cases h0
  · rw [runTool, if_neg hd] at h0
    rw [runTool, if_neg hd] at h1
    have hdr : dest.rows = bk.rows := by
      by_contra hb
      exact hd (Or.inl hb)
    have hdc : dest.columns = bk.columns := by
      by_contra hb
      exact hd (Or.inr hb)
    have e0 : resolveBackground false bk.nodata = bk.nodata := rfl
    have e1 : resolveBackground true bk.nodata = 0 := rfl
    rw [e0] at h0
    rw [e1] at h1
    have hInit : Inv bk [] (initOutput bk.nodata) (initOutput 0) := by
      intro q _
      exact ⟨fun _ => ⟨rfl, rfl⟩, fun hin => absurd hin (List.not_mem_nil q)⟩
    rcases scan_par dest bk dest.rows dest.columns hdr hdc hn (dest.rows * dest.columns + 2)
        (cellList dest.rows dest.columns) [] (initOutput bk.nodata) (initOutput 0) hInit with
      ⟨hs0, hs1⟩ | ⟨hs0, hs1⟩ | ⟨o0, o1, hs0, hs1, hI⟩
    · rw [hs0] at h0
      cases h0
    · rw [hs0] at h0
      cases h0
    · rw [hs0] at h0
      rw [hs1] at h1
      injection h0 with hr0 hc0 ho0
      injection h1 with hr1 hc1 ho1
      rw [List.nil_append] at hI
      rw [allTraceVisits]
      subst ho0
      subst ho1
      exact hI p hp

/-- Witness for C8: on the 1 by 2 input with no destination, the cell `(0, 0)`
(valid pointer, visited by no trace) holds NoData in the default run and `0`
in the zero-background run. -/
theorem c8_background_mode_relation_w :
    outOf (runTool dest1x2bg bk1x2bg false) (0, 0) = bk1x2bg.nodata ∧
    outOf (runTool dest1x2bg bk1x2bg true) (0, 0) = 0 := by
  have h := c8_background_mode_relation dest1x2bg bk1x2bg (by decide) 1 2 1 2
    (outOf (runTool dest1x2bg bk1x2bg false)) (outOf (runTool dest1x2bg bk1x2bg true))
    rfl rfl (0, 0) (by decide)
  exact h.1 (by decide)

end CostPathway
